import Mathlib

/-!
Shallow embedding of the AI-Chat-app conversation orchestration core.

Client side (React, `frontend/src`): the chat state kept by `ChatContext.tsx`
(conversation list, current conversation, rendered message list) and its
operations `sendMessage`, `selectConversation`, `regenerateMessage`,
`deleteConversation`, together with the axios response interceptor of the API
client.  React's `setX(prev => ...)` functional updates are embedded as pure
functions from the state at the moment the update runs; values captured by a
completion closure (the optimistic message, the `currentConversation` read at
send time) are explicit parameters, so that a completion can be applied to a
state that changed while the request was in flight.

Server side: the FastAPI backend's `app/` package is not part of the sources
(only its README); the Mode Dispatcher, Context Windower, branches and record
store are therefore modelled from the specification text, and each such
definition is marked `Modelled from the spec:` in its doc comment.
-/

namespace AIChat

/-- A chat message as the client sees it (`Message` in the TypeScript types):
id, owning conversation id, role, content, optional tool tag, optional trace
id, optional metadata, creation timestamp. -/
structure Message where
  id : Nat
  conversation_id : Nat
  role : String
  content : String
  tool_used : Option String := none
  langfuse_trace_id : Option String := none
  message_metadata : Option String := none
  created_at : String := ""
deriving DecidableEq, Repr

/-- A conversation record (`Conversation` in the TypeScript types). -/
structure Conversation where
  id : Nat
  user_id : Nat
  title : Option String := none
  langfuse_session_id : Option String := none
  created_at : String := ""
  updated_at : String := ""
deriving DecidableEq, Repr

/-- The `/chat/send` and `/chat/regenerate` response envelope
(`ChatResponse` in the TypeScript types). -/
structure ChatResponse where
  message : Message
  conversation_id : Nat
  langfuse_trace_id : Option String := none
deriving DecidableEq, Repr

/-- The client chat state held by `ChatContext.tsx`: the conversation list,
the currently selected conversation (if any) and the rendered message list. -/
structure ClientState where
  conversations : List Conversation
  currentConversation : Option Conversation
  messages : List Message
deriving DecidableEq, Repr

/-- `currentConversation?.id === conversationId` from `ChatContext.tsx`. -/
def currentIs (st : ClientState) (conversationId : Nat) : Bool :=
  match st.currentConversation with
  | some c => c.id == conversationId
  | none => false

/-- The optimistic user message inserted by `sendMessage`
(`ChatContext.tsx` lines 118-124): temporary id `Date.now()`, conversation id
`conversationId || 0`, role `user`. -/
def optimisticMessage (now : Nat) (conversationId : Option Nat)
    (content createdAt : String) : Message :=
  { id := now
    conversation_id := conversationId.getD 0
    role := "user"
    content := content
    created_at := createdAt }

/-- JavaScript `String.prototype.trim`, embedded over the character list:
leading and trailing whitespace characters are removed. -/
def jsTrim (s : String) : String :=
  String.mk
    (((s.data.dropWhile Char.isWhitespace).reverse.dropWhile
      Char.isWhitespace).reverse)

/-- The synchronous first phase of `sendMessage` (`ChatContext.tsx` lines
104-125): the empty-after-trim guard, the loading-conversation guard (one
warning), then the optimistic insert.  Returns the state after the phase,
whether the send API call is reached, and how many warnings were emitted. -/
def sendMessagePhase1 (st : ClientState) (loadingConversation : Bool)
    (content : String) (now : Nat) (createdAt : String) :
    ClientState × Bool × Nat :=
  if jsTrim content = "" then
    (st, false, 0)
  else if loadingConversation then
    (st, false, 1)
  else
    ({ st with
        messages := st.messages ++
          [optimisticMessage now (st.currentConversation.map Conversation.id)
            content createdAt] },
      true, 0)

/-- The success-completion closure of `sendMessage` (`ChatContext.tsx` lines
138-190), applied to the client state current when the response arrives.
`sendTimeCurrent` is the `currentConversation` value captured at send time;
`fetchedConv` is the conversation returned by
`getConversation(response.conversation_id)` in the new-conversation branch;
`now2` is the value of the second `Date.now()` call. -/
def applySendSuccess (sendTimeCurrent : Option Conversation)
    (optimistic : Message) (now2 : Nat) (resp : ChatResponse)
    (fetchedConv : Conversation) (st : ClientState) : ClientState :=
  match sendTimeCurrent with
  | none =>
    let convs :=
      if st.conversations.any (fun c => c.id == resp.conversation_id) then
        st.conversations.map
          (fun c => if c.id == resp.conversation_id then fetchedConv else c)
      else
        fetchedConv :: st.conversations
    let msgs :=
      (st.messages.map (fun m =>
        if m.id == optimistic.id then
          { optimistic with
              id := now2 - 1
              conversation_id := resp.conversation_id }
        else m)) ++ [resp.message]
    { conversations := convs
      currentConversation := some fetchedConv
      messages := msgs }
  | some _ =>
    let msgs :=
      (st.messages.map (fun m =>
        if m.id == optimistic.id && m.conversation_id == 0 then
          { m with conversation_id := resp.conversation_id }
        else m)) ++ [resp.message]
    { st with messages := msgs }

/-- The failure-completion closure of `sendMessage` (`ChatContext.tsx` lines
192-199): the optimistic message is filtered out of the current message list;
nothing else is touched. -/
def applySendFailure (optimisticId : Nat) (st : ClientState) : ClientState :=
  { st with messages := st.messages.filter (fun m => m.id != optimisticId) }

/-- The error toasts emitted by the failure path of `sendMessage`
(`ChatContext.tsx` line 194): one call to
`antdMessage.error(error.detail || 'Failed to send message')`. -/
def sendFailureErrors (errDetail : String) : List String :=
  [if errDetail = "" then "Failed to send message" else errDetail]

/-- The success path of `selectConversation` (`ChatContext.tsx` lines 49-97):
messages are cleared and then set to the fetched message list, the
conversation is looked up locally (fetched and inserted into the list when
absent), and it becomes the current conversation. -/
def selectConversationApply (st : ClientState) (conversationId : Nat)
    (fetched : Conversation) (conversationMessages : List Message) :
    ClientState :=
  match st.conversations.find? (fun c => c.id == conversationId) with
  | some c =>
    { st with currentConversation := some c, messages := conversationMessages }
  | none =>
    let convs :=
      if st.conversations.any (fun c => c.id == conversationId) then
        st.conversations.map
          (fun c => if c.id == conversationId then fetched else c)
      else
        st.conversations ++ [fetched]
    { conversations := convs
      currentConversation := some fetched
      messages := conversationMessages }

/-- The message-list update of `regenerateMessage` (`ChatContext.tsx` lines
211-213): `prev.map(m => m.id === messageId ? response.message : m)`. -/
def regenerateApply (messages : List Message) (messageId : Nat)
    (respMessage : Message) : List Message :=
  messages.map (fun m => if m.id == messageId then respMessage else m)

/-- The client state update of `deleteConversation` (`ChatContext.tsx` lines
224-240): the conversation is filtered from the list, and when it was the
current one, the current conversation and the rendered messages are cleared. -/
def deleteConversationClient (st : ClientState) (conversationId : Nat) :
    ClientState :=
  let convs := st.conversations.filter (fun c => c.id != conversationId)
  if currentIs st conversationId then
    { conversations := convs, currentConversation := none, messages := [] }
  else
    { st with conversations := convs }

/-- The outgoing `tool_selection` field computed by `sendMessage`
(`ChatContext.tsx` line 135). -/
def toolSelection (selectedModel : String) : String :=
  if selectedModel = "internet" then "internet"
  else if selectedModel = "auto" then "auto"
  else "none"

/-- The error branch of an axios error as seen by the response interceptor
(`client.ts`): the optional HTTP response with its status and optional
`data.detail`, and the transport-level `error.message`. -/
structure ErrResponse where
  status : Nat
  detail : Option String := none
deriving DecidableEq, Repr

/-- An axios rejection value: `error.response` may be absent (network-level
failure), `error.message` is the transport message (possibly empty). -/
structure AxiosErr where
  response : Option ErrResponse := none
  message : String := ""
deriving DecidableEq, Repr

/-- The normalized error shape (`ApiError` in the TypeScript types). -/
structure ApiError where
  detail : String
  status_code : Option Nat := none
deriving DecidableEq, Repr

/-- What the response interceptor does besides rejecting: which localStorage
keys it removes and whether it redirects to the login page. -/
structure InterceptOutcome where
  apiError : ApiError
  removedKeys : List String
  redirectedToLogin : Bool
deriving DecidableEq, Repr

/-- JavaScript `a || b` on strings: the empty string is falsy. -/
def jsOr (a b : String) : String := if a = "" then b else a

/-- The response error interceptor of the API client (`client.ts` lines
28-47): on status 401 it removes `access_token` and `user` from localStorage
and redirects to `/login`; in every case it rejects with
`{detail: error.response?.data?.detail || error.message || 'An error
occurred', status_code: error.response?.status}`. -/
def responseInterceptor (e : AxiosErr) : InterceptOutcome :=
  let is401 : Bool :=
    match e.response with
    | some r => r.status == 401
    | none => false
  { apiError :=
      { detail :=
          jsOr (jsOr ((e.response.bind ErrResponse.detail).getD "") e.message)
            "An error occurred"
        status_code := e.response.map ErrResponse.status }
    removedKeys := if is401 then ["access_token", "user"] else []
    redirectedToLogin := is401 }

/-! ### Server side, modelled from the specification

The backend's `app/` package is not among the sources; only its README is.
The definitions below are therefore written from the specification's words
(spec §4.1, §4.4, §4.5, §4.6) and the README, not from code. -/

/-- A role/content pair as sent to the inference service. -/
structure ChatMsg where
  role : String
  content : String
deriving DecidableEq, Repr

/-- Modelled from the spec: the Context Windower (§4.1, backend
`app/services`, absent from src/).  Given the ordered history, it keeps the
last `w` messages (oldest first) and prepends the system prompt, if present,
without counting it against `w`. -/
def contextWindow (w : Nat) (systemPrompt : Option ChatMsg)
    (history : List ChatMsg) : List ChatMsg :=
  let recent := history.drop (history.length - w)
  match systemPrompt with
  | some sp => sp :: recent
  | none => recent

/-- Modelled from the spec: the default window size W (spec §4.1 and the
README's "last 10 messages" feature line). -/
def defaultWindowSize : Nat := 10

/-- A typed adapter/agent failure (spec §7). -/
inductive FailureKind where
  | unreachable
  | timeout
  | modelNotFound
  | notConfigured
  | rateLimited
  | agentExhausted
deriving DecidableEq, Repr

/-- A normalized completion from the Inference Adapter (spec §4.2). -/
structure Completion where
  text : String
  promptTokens : Nat
  completionTokens : Nat
deriving DecidableEq, Repr

/-- The common response envelope a dispatcher branch produces: the answer
text and the `tool_used` tag. -/
structure BranchResponse where
  text : String
  tool_used : String
deriving DecidableEq, Repr

/-- Modelled from the spec: `NoneBranch` (§4.4, backend absent from src/):
the windowed history goes to the Inference Adapter; on success the assistant
message is the completion text with `tool_used = "none"`; on failure a typed
error. -/
def noneBranch (infer : List ChatMsg → Except FailureKind Completion)
    (windowed : List ChatMsg) : Except FailureKind BranchResponse :=
  match infer windowed with
  | .ok c => .ok { text := c.text, tool_used := "none" }
  | .error k => .error k

/-- Modelled from the spec: `AutoBranch` (§4.4-4.5, backend absent from
src/): it delegates to the Agent Loop; on agent success the answer carries
`tool_used = "auto"`; on agent failure of any kind it falls back to
`NoneBranch` with the same windowed history. -/
def autoBranch (agent : List ChatMsg → Except FailureKind String)
    (infer : List ChatMsg → Except FailureKind Completion)
    (windowed : List ChatMsg) : Except FailureKind BranchResponse :=
  match agent windowed with
  | .ok t => .ok { text := t, tool_used := "auto" }
  | .error _ => noneBranch infer windowed

/-- The three strategies of the Mode Dispatcher. -/
inductive Branch where
  | noneB
  | internetB
  | autoB
deriving DecidableEq, Repr

/-- Modelled from the spec: Mode Dispatcher transition selection (§4.4,
backend absent from src/): a pure function of the request's mode field;
unknown or missing mode defaults to `NoneBranch`. -/
def selectBranch (mode : Option String) : Branch :=
  match mode with
  | some m =>
    if m = "none" then .noneB
    else if m = "internet" then .internetB
    else if m = "auto" then .autoB
    else .noneB
  | none => .noneB

/-- An incoming chat request (`MessageCreate` in the TypeScript types /
spec §3 ChatRequest): text, optional conversation id, optional model,
optional mode selector. -/
structure ChatRequest where
  message : String
  conversation_id : Option Nat := none
  model : Option String := none
  tool_selection : Option String := none
deriving DecidableEq, Repr

/-- The branch the Mode Dispatcher picks for a request: `selectBranch`
applied to the request's mode field and to nothing else. -/
def branchOf (r : ChatRequest) : Branch :=
  selectBranch r.tool_selection

/-- The record-store error for a missing or foreign record (spec §4.6). -/
inductive StoreError where
  | notFound
deriving DecidableEq, Repr

/-- Modelled from the spec: the persistent record store (§6, backend
absent from src/): conversations and messages, messages owned by their
conversation through `conversation_id`. -/
structure ServerStore where
  conversations : List Conversation
  messages : List Message
deriving DecidableEq, Repr

/-- Modelled from the spec: `deleteConversation` on the record store
(§4.6, backend absent from src/): removes the conversation and cascades to
all of its messages. -/
def ServerStore.deleteConversation (s : ServerStore) (conversationId : Nat) :
    ServerStore :=
  { conversations := s.conversations.filter (fun c => c.id != conversationId)
    messages := s.messages.filter (fun m => m.conversation_id != conversationId) }

/-- Modelled from the spec: reading a conversation by id from the record
store (§4.6, backend absent from src/): `NotFound` when no such record
exists. -/
def ServerStore.getConversation (s : ServerStore) (conversationId : Nat) :
    Except StoreError Conversation :=
  match s.conversations.find? (fun c => c.id == conversationId) with
  | some c => .ok c
  | none => .error .notFound

/-! ### Concrete scenario: a send whose response arrives after the user has
switched to another conversation.

The user is on conversation 1, sends "hi" (optimistic insert), switches to
conversation 2 (the rendered list becomes conversation 2's messages), and
only then does the response for conversation 1 arrive. -/

/-- Conversation 1, selected when the send is issued. -/
def exConvA : Conversation :=
  { id := 1, user_id := 1, title := some "A" }

/-- Conversation 2, selected while the send is in flight. -/
def exConvB : Conversation :=
  { id := 2, user_id := 1, title := some "B" }

/-- A persisted message of conversation 1, rendered before the send. -/
def exMsgA1 : Message :=
  { id := 10, conversation_id := 1, role := "user", content := "earlier" }

/-- A persisted message of conversation 2, rendered after the switch. -/
def exMsgB1 : Message :=
  { id := 20, conversation_id := 2, role := "user", content := "other topic" }

/-- The client state when the send is issued: conversation 1 selected. -/
def exStA : ClientState :=
  { conversations := [exConvA, exConvB]
    currentConversation := some exConvA
    messages := [exMsgA1] }

/-- The optimistic message the send inserts (`Date.now() = 1000`). -/
def exOpt : Message :=
  optimisticMessage 1000 (exStA.currentConversation.map Conversation.id)
    "hi" "t2"

/-- The state after the optimistic insert of the send. -/
def exStA1 : ClientState :=
  (sendMessagePhase1 exStA false "hi" 1000 "t2").1

/-- The state after the user switches to conversation 2 mid-flight. -/
def exStB : ClientState :=
  selectConversationApply exStA1 2 exConvB [exMsgB1]

/-- The response for the conversation-1 send, arriving after the switch. -/
def exResp : ChatResponse :=
  { message :=
      { id := 50, conversation_id := 1, role := "assistant"
        content := "answer about conversation 1", tool_used := some "none"
        created_at := "t3" }
    conversation_id := 1 }

/-- The client state after the stale success completion runs against the
state rendered for conversation 2. -/
def exFinal : ClientState :=
  applySendSuccess exStA.currentConversation exOpt 2000 exResp exConvA exStB

end AIChat

namespace AIChat

/-- Claim C1: the spec requires a stale send response (one arriving after the
user switched conversations) to be applied only to the stored history of the
originating conversation and never to the currently rendered list.  The code
keeps no per-conversation stored history and its completion closure appends
the response to whatever list is rendered at completion time: starting on
conversation 1, sending, switching to conversation 2 and then receiving the
conversation-1 response leaves conversation 2 selected while its rendered
message list has gained the conversation-1 assistant message. -/
theorem staleResponse_mutates_rendered_list :
    exStB.currentConversation = some exConvB ∧
    exStB.messages = [exMsgB1] ∧
    exFinal.currentConversation = some exConvB ∧
    exFinal.messages = [exMsgB1, exResp.message] ∧
    exFinal.messages ≠ exStB.messages ∧
    exResp.message.conversation_id = exConvA.id ∧
    exConvB.id ≠ exConvA.id := by
  have hmsgs : exFinal.messages = [exMsgB1, exResp.message] := by decide
  have hstb : exStB.messages = [exMsgB1] := by decide
  refine ⟨by decide, hstb, by decide, hmsgs, ?_, by decide, by decide⟩
  rw [hmsgs, hstb]
  intro h
  have hlen := congrArg List.length h
  simp at hlen

/-- Claim C2: in auto mode, when the Agent Loop fails with any failure kind,
the Mode Dispatcher's `AutoBranch` returns exactly what `NoneBranch` returns
for the same inference adapter and the same windowed history, and any
successful fallback answer carries `tool_used = "none"`. -/
theorem autoBranch_fallback_equals_noneBranch
    (agent : List ChatMsg → Except FailureKind String)
    (infer : List ChatMsg → Except FailureKind Completion)
    (windowed : List ChatMsg) (k : FailureKind)
    (hfail : agent windowed = .error k) :
    autoBranch agent infer windowed = noneBranch infer windowed ∧
    (∀ r, noneBranch infer windowed = .ok r → r.tool_used = "none") := by
  constructor
  · unfold autoBranch
    rw [hfail]
  · intro r hr
    unfold noneBranch at hr
    cases h : infer windowed with
    | ok c => rw [h] at hr; cases hr; rfl
    | error k2 => rw [h] at hr; cases hr

/-- Witness for C2 at a concrete failing agent and succeeding adapter. -/
theorem autoBranch_fallback_equals_noneBranch_witness :
    autoBranch (fun _ => .error .unreachable)
        (fun _ => .ok { text := "hi", promptTokens := 1, completionTokens := 2 })
        [] =
      noneBranch
        (fun _ => .ok { text := "hi", promptTokens := 1, completionTokens := 2 })
        [] ∧
    ({ text := "hi", tool_used := "none" } : BranchResponse).tool_used =
      "none" :=
  ⟨(autoBranch_fallback_equals_noneBranch (fun _ => .error .unreachable)
      (fun _ => .ok { text := "hi", promptTokens := 1, completionTokens := 2 })
      [] .unreachable rfl).1,
   (autoBranch_fallback_equals_noneBranch (fun _ => .error .unreachable)
      (fun _ => .ok { text := "hi", promptTokens := 1, completionTokens := 2 })
      [] .unreachable rfl).2 _ rfl⟩

/-- Claim C5: for every history longer than the window size `w`, the Context
Windower keeps exactly the last `w` messages, as a suffix of the history (so
in original order, oldest first), and a system prompt is prepended without
counting against `w`; the default window size is 10. -/
theorem contextWindower_returns_last_w (w : Nat) (sp : ChatMsg)
    (history : List ChatMsg) (hlong : w < history.length) :
    (contextWindow w none history).length = w ∧
    history.take (history.length - w) ++ contextWindow w none history =
      history ∧
    contextWindow w (some sp) history = sp :: contextWindow w none history ∧
    (contextWindow w (some sp) history).length = w + 1 ∧
    defaultWindowSize = 10 := by
  have hle : w ≤ history.length := le_of_lt hlong
  refine ⟨?_, ?_, rfl, ?_, rfl⟩
  · simp [contextWindow, Nat.sub_sub_self hle]
  · simp [contextWindow, List.take_append_drop]
  · simp [contextWindow, Nat.sub_sub_self hle]

/-- Witness for C5 on a three-message history with window size two. -/
theorem contextWindower_returns_last_w_witness :
    (contextWindow 2 none
        [⟨"user", "a"⟩, ⟨"assistant", "b"⟩, ⟨"user", "c"⟩]).length = 2 ∧
    contextWindow 2 (some ⟨"system", "s"⟩)
        [⟨"user", "a"⟩, ⟨"assistant", "b"⟩, ⟨"user", "c"⟩] =
      ⟨"system", "s"⟩ :: contextWindow 2 none
        [⟨"user", "a"⟩, ⟨"assistant", "b"⟩, ⟨"user", "c"⟩] :=
  ⟨(contextWindower_returns_last_w 2 ⟨"system", "s"⟩
      [⟨"user", "a"⟩, ⟨"assistant", "b"⟩, ⟨"user", "c"⟩] (by decide)).1,
   (contextWindower_returns_last_w 2 ⟨"system", "s"⟩
      [⟨"user", "a"⟩, ⟨"assistant", "b"⟩, ⟨"user", "c"⟩] (by decide)).2.2.1⟩

/-- Claim C7: Mode Dispatcher branch selection depends only on the request's
mode field, and unknown or missing modes route to `NoneBranch`; on the
client, the outgoing `tool_selection` is `"internet"` iff the selected model
is `"internet"`, `"auto"` iff it is `"auto"`, and `"none"` otherwise. -/
theorem branch_selection_pure_and_default :
    (∀ r1 r2 : ChatRequest, r1.tool_selection = r2.tool_selection →
      branchOf r1 = branchOf r2) ∧
    selectBranch none = Branch.noneB ∧
    (∀ s : String, s ≠ "none" → s ≠ "internet" → s ≠ "auto" →
      selectBranch (some s) = Branch.noneB) ∧
    (∀ s : String,
      (toolSelection s = "internet" ↔ s = "internet") ∧
      (toolSelection s = "auto" ↔ s = "auto") ∧
      (s ≠ "internet" → s ≠ "auto" → toolSelection s = "none")) := by
  refine ⟨?_, rfl, ?_, ?_⟩
  · intro r1 r2 h
    unfold branchOf
    rw [h]
  · intro s h1 h2 h3
    simp [selectBranch, h1, h2, h3]
  · intro s
    refine ⟨?_, ?_, ?_⟩ <;> unfold toolSelection <;> split_ifs <;> simp_all

/-- Witness for C7: an unrecognized mode and a plain model name both land on
the none path. -/
theorem branch_selection_pure_and_default_witness :
    branchOf { message := "hi", tool_selection := some "turbo" } =
      Branch.noneB ∧
    toolSelection "llama3:latest" = "none" :=
  ⟨branch_selection_pure_and_default.2.2.1 "turbo" (by decide) (by decide)
      (by decide),
   (branch_selection_pure_and_default.2.2.2 "llama3:latest").2.2 (by decide)
      (by decide)⟩

/-- Claim C3: when the send API call rejects, the failure completion removes
the optimistic message and restores the whole client state to what it was
before the send (message list, conversation list and current conversation all
unchanged, no conversation created), and exactly one error is surfaced.
`hfresh` states that the temporary id `Date.now()` does not collide with an
existing message id. -/
theorem sendMessage_failure_rollback (st : ClientState) (content : String)
    (now : Nat) (createdAt : String) (errDetail : String)
    (hfresh : ∀ m ∈ st.messages, m.id ≠ now) :
    applySendFailure now
        { st with
            messages := st.messages ++
              [optimisticMessage now
                (st.currentConversation.map Conversation.id) content
                createdAt] } = st ∧
    (sendFailureErrors errDetail).length = 1 := by
  constructor
  · have hmsgs :
        (st.messages ++
          [optimisticMessage now (st.currentConversation.map Conversation.id)
            content createdAt]).filter (fun m => m.id != now) =
          st.messages := by
      rw [List.filter_append]
      have h1 : st.messages.filter (fun m => m.id != now) = st.messages :=
        List.filter_eq_self.mpr (fun m hm => by simpa using hfresh m hm)
      have h2 :
          ([optimisticMessage now
            (st.currentConversation.map Conversation.id) content
            createdAt] : List Message).filter (fun m => m.id != now) = [] := by
        simp [optimisticMessage]
      rw [h1, h2, List.append_nil]
    cases st
    simp_all [applySendFailure]
  · rfl

/-- Witness for C3: a failing send on a one-message conversation rolls the
state back exactly. -/
theorem sendMessage_failure_rollback_witness :
    applySendFailure 99
        { conversations := [exConvA]
          currentConversation := some exConvA
          messages := [exMsgA1] ++
            [optimisticMessage 99 ((some exConvA).map Conversation.id) "hi"
              "t"] } =
      { conversations := [exConvA]
        currentConversation := some exConvA
        messages := [exMsgA1] } ∧
    (sendFailureErrors "Network Error").length = 1 :=
  sendMessage_failure_rollback
    { conversations := [exConvA]
      currentConversation := some exConvA
      messages := [exMsgA1] } "hi" 99 "t" "Network Error" (by decide)

/-- Claim C4: a successful send issued with no conversation selected (so with
an empty rendered list) stamps the pending entry with the server-assigned
conversation id, inserts the fetched conversation record at the head of the
list, makes it current, and appends the assistant message, leaving exactly
the two messages of that conversation rendered and no entry with the
temporary id or with conversation id 0.  The hypotheses on `resp` are the
server's contract: the response's conversation id is the real (nonzero) one,
its message belongs to it, and neither server id collides with the two
client-generated timestamp ids. -/
theorem sendMessage_newConversation_reconciles (st : ClientState)
    (content createdAt : String) (now now2 : Nat) (resp : ChatResponse)
    (fetchedConv : Conversation)
    (hcur : st.currentConversation = none)
    (hempty : st.messages = [])
    (hnew : st.conversations.any (fun c => c.id == resp.conversation_id) =
      false)
    (hcid : resp.conversation_id ≠ 0)
    (hmsgconv : resp.message.conversation_id = resp.conversation_id)
    (hmsgid : resp.message.id ≠ now)
    (hstamp : now2 - 1 ≠ now) :
    (applySendSuccess st.currentConversation
          (optimisticMessage now (st.currentConversation.map Conversation.id)
            content createdAt) now2 resp fetchedConv
          { st with
              messages := st.messages ++
                [optimisticMessage now
                  (st.currentConversation.map Conversation.id) content
                  createdAt] }).conversations =
        fetchedConv :: st.conversations ∧
    (applySendSuccess st.currentConversation
          (optimisticMessage now (st.currentConversation.map Conversation.id)
            content createdAt) now2 resp fetchedConv
          { st with
              messages := st.messages ++
                [optimisticMessage now
                  (st.currentConversation.map Conversation.id) content
                  createdAt] }).currentConversation = some fetchedConv ∧
    (applySendSuccess st.currentConversation
          (optimisticMessage now (st.currentConversation.map Conversation.id)
            content createdAt) now2 resp fetchedConv
          { st with
              messages := st.messages ++
                [optimisticMessage now
                  (st.currentConversation.map Conversation.id) content
                  createdAt] }).messages =
        [{ optimisticMessage now none content createdAt with
            id := now2 - 1
            conversation_id := resp.conversation_id }, resp.message] ∧
    ∀ m ∈ (applySendSuccess st.currentConversation
          (optimisticMessage now (st.currentConversation.map Conversation.id)
            content createdAt) now2 resp fetchedConv
          { st with
              messages := st.messages ++
                [optimisticMessage now
                  (st.currentConversation.map Conversation.id) content
                  createdAt] }).messages,
        m.conversation_id ≠ 0 ∧ m.id ≠ now := by
  rw [hcur, hempty]
  refine ⟨?_, ?_, ?_, ?_⟩
  · simp [applySendSuccess, hnew]
  · simp [applySendSuccess]
  · simp [applySendSuccess, optimisticMessage]
  · intro m hm
    simp [applySendSuccess, optimisticMessage] at hm
    rcases hm with h | h
    · subst h
      exact ⟨hcid, hstamp⟩
    · subst h
      exact ⟨by rw [hmsgconv]; exact hcid, hmsgid⟩

/-- Witness for C4: the spec's scenario — "Hello" sent with nothing selected,
the server creates conversation 7. -/
theorem sendMessage_newConversation_reconciles_witness :
    (applySendSuccess (none : Option Conversation)
          (optimisticMessage 100 none "Hello" "t1") 200
          { message :=
              { id := 51, conversation_id := 7, role := "assistant"
                content := "Hi there", tool_used := some "none" }
            conversation_id := 7 }
          { id := 7, user_id := 1, title := some "Hello" }
          { conversations := []
            currentConversation := none
            messages := [] ++ [optimisticMessage 100 none "Hello" "t1"] }
        ).conversations =
      [{ id := 7, user_id := 1, title := some "Hello" }] ∧
    (applySendSuccess (none : Option Conversation)
          (optimisticMessage 100 none "Hello" "t1") 200
          { message :=
              { id := 51, conversation_id := 7, role := "assistant"
                content := "Hi there", tool_used := some "none" }
            conversation_id := 7 }
          { id := 7, user_id := 1, title := some "Hello" }
          { conversations := []
            currentConversation := none
            messages := [] ++ [optimisticMessage 100 none "Hello" "t1"] }
        ).messages =
      [{ optimisticMessage 100 none "Hello" "t1" with
          id := 199, conversation_id := 7 },
        { id := 51, conversation_id := 7, role := "assistant"
          content := "Hi there", tool_used := some "none" }] :=
  ⟨(sendMessage_newConversation_reconciles
      { conversations := [], currentConversation := none, messages := [] }
      "Hello" "t1" 100 200
      { message :=
          { id := 51, conversation_id := 7, role := "assistant"
            content := "Hi there", tool_used := some "none" }
        conversation_id := 7 }
      { id := 7, user_id := 1, title := some "Hello" }
      rfl rfl rfl (by decide) rfl (by decide) (by decide)).1,
   (sendMessage_newConversation_reconciles
      { conversations := [], currentConversation := none, messages := [] }
      "Hello" "t1" 100 200
      { message :=
          { id := 51, conversation_id := 7, role := "assistant"
            content := "Hi there", tool_used := some "none" }
        conversation_id := 7 }
      { id := 7, user_id := 1, title := some "Hello" }
      rfl rfl rfl (by decide) rfl (by decide) (by decide)).2.2.1⟩

/-- Claim C6: the client-side regeneration update replaces the targeted
assistant message in place: the list keeps its length, every position keeps
its message id (so the target keeps id and position), every message with a
different id is untouched, and the target's slot holds the regenerated
message.  `hid` is the server's regeneration contract (spec §4.6): the
returned message carries the same id. -/
theorem regenerateMessage_in_place (ms : List Message) (messageId : Nat)
    (respMessage : Message) (hid : respMessage.id = messageId) :
    (regenerateApply ms messageId respMessage).length = ms.length ∧
    (∀ i : Nat, ((regenerateApply ms messageId respMessage)[i]?).map
        Message.id = (ms[i]?).map Message.id) ∧
    (∀ i : Nat, ∀ m, ms[i]? = some m → m.id ≠ messageId →
      (regenerateApply ms messageId respMessage)[i]? = some m) ∧
    (∀ i : Nat, ∀ m, ms[i]? = some m → m.id = messageId →
      (regenerateApply ms messageId respMessage)[i]? = some respMessage) := by
  refine ⟨by simp [regenerateApply], ?_, ?_, ?_⟩
  · intro i
    simp only [regenerateApply, List.getElem?_map]
    cases h : ms[i]? with
    | none => rfl
    | some m =>
      simp only [Option.map_some']
      by_cases hm : m.id = messageId
      · simp [hm, hid]
      · simp [hm]
  · intro i m hm hne
    simp [regenerateApply, List.getElem?_map, hm, hne]
  · intro i m hm heq
    simp [regenerateApply, List.getElem?_map, hm, heq]

/-- Witness for C6: regenerating the assistant message with id 2 in a
two-message list replaces slot 1 and leaves slot 0 alone. -/
theorem regenerateMessage_in_place_witness :
    (regenerateApply [exMsgA1,
        { id := 2, conversation_id := 1, role := "assistant"
          content := "old answer" }] 2
        { id := 2, conversation_id := 1, role := "assistant"
          content := "new answer" })[0]? = some exMsgA1 ∧
    (regenerateApply [exMsgA1,
        { id := 2, conversation_id := 1, role := "assistant"
          content := "old answer" }] 2
        { id := 2, conversation_id := 1, role := "assistant"
          content := "new answer" })[1]? =
      some { id := 2, conversation_id := 1, role := "assistant",
              content := "new answer" } :=
  ⟨(regenerateMessage_in_place [exMsgA1,
      { id := 2, conversation_id := 1, role := "assistant"
        content := "old answer" }] 2
      { id := 2, conversation_id := 1, role := "assistant"
        content := "new answer" } rfl).2.2.1 0 exMsgA1 (by decide)
      (by decide),
   (regenerateMessage_in_place [exMsgA1,
      { id := 2, conversation_id := 1, role := "assistant"
        content := "old answer" }] 2
      { id := 2, conversation_id := 1, role := "assistant"
        content := "new answer" } rfl).2.2.2 1
      { id := 2, conversation_id := 1, role := "assistant"
        content := "old answer" } (by decide) rfl⟩

/-- Claim C8: deleting a conversation cascades on the server (no message of
it survives and reading it afterwards yields `NotFound`), and on the client
removes exactly that conversation from the local list, clearing the current
conversation and the rendered messages iff the deleted conversation was the
selected one. -/
theorem deleteConversation_cascades_and_clears (s : ServerStore)
    (st : ClientState) (conversationId : Nat) :
    (∀ m ∈ (s.deleteConversation conversationId).messages,
      m.conversation_id ≠ conversationId) ∧
    (s.deleteConversation conversationId).getConversation conversationId =
      .error .notFound ∧
    (∀ c ∈ (deleteConversationClient st conversationId).conversations,
      c.id ≠ conversationId) ∧
    (∀ c ∈ st.conversations, c.id ≠ conversationId →
      c ∈ (deleteConversationClient st conversationId).conversations) ∧
    (currentIs st conversationId = true →
      (deleteConversationClient st conversationId).currentConversation =
        none ∧
      (deleteConversationClient st conversationId).messages = []) ∧
    (currentIs st conversationId = false →
      (deleteConversationClient st conversationId).currentConversation =
        st.currentConversation ∧
      (deleteConversationClient st conversationId).messages = st.messages) :=
  by
  refine ⟨?_, ?_, ?_, ?_, ?_, ?_⟩
  · intro m hm
    simp [ServerStore.deleteConversation, List.mem_filter] at hm
    exact hm.2
  · have hfind :
        ((s.deleteConversation conversationId).conversations).find?
          (fun c => c.id == conversationId) = none := by
      rw [List.find?_eq_none]
      intro c hc
      simp [ServerStore.deleteConversation, List.mem_filter] at hc
      simp [hc.2]
    simp [ServerStore.getConversation, hfind]
  · intro c hc
    by_cases h : currentIs st conversationId <;>
      simp [deleteConversationClient, h, List.mem_filter] at hc <;>
      exact hc.2
  · intro c hc hne
    by_cases h : currentIs st conversationId <;>
      simp [deleteConversationClient, h, List.mem_filter] <;>
      exact ⟨hc, hne⟩
  · intro h
    simp [deleteConversationClient, h]
  · intro h
    simp [deleteConversationClient, h]

/-- Witness for C8: deleting conversation 1 while it is selected, on a store
holding its two messages. -/
theorem deleteConversation_cascades_and_clears_witness :
    (ServerStore.getConversation
        (ServerStore.deleteConversation
          { conversations := [exConvA, exConvB]
            messages := [exMsgA1, exMsgB1] } 1) 1) = .error .notFound ∧
    (deleteConversationClient exStA 1).currentConversation = none ∧
    (deleteConversationClient exStA 1).messages = [] :=
  ⟨(deleteConversation_cascades_and_clears
      { conversations := [exConvA, exConvB]
        messages := [exMsgA1, exMsgB1] } exStA 1).2.1,
   ((deleteConversation_cascades_and_clears
      { conversations := [exConvA, exConvB]
        messages := [exMsgA1, exMsgB1] } exStA 1).2.2.2.2.1 (by decide)).1,
   ((deleteConversation_cascades_and_clears
      { conversations := [exConvA, exConvB]
        messages := [exMsgA1, exMsgB1] } exStA 1).2.2.2.2.1 (by decide)).2⟩

/-- Claim C9: an input that is empty after trimming makes `sendMessage`
return before any state change, optimistic insert, API call or toast; a
non-blank send attempted while a conversation is loading likewise changes no
state and reaches no API call, surfacing exactly one warning. -/
theorem sendMessage_empty_and_loading_guards (st : ClientState)
    (loadingConversation : Bool) (content : String) (now : Nat)
    (createdAt : String) :
    (jsTrim content = "" →
      sendMessagePhase1 st loadingConversation content now createdAt =
        (st, false, 0)) ∧
    (jsTrim content ≠ "" → loadingConversation = true →
      sendMessagePhase1 st loadingConversation content now createdAt =
        (st, false, 1)) := by
  constructor
  · intro h
    simp [sendMessagePhase1, h]
  · intro h hl
    simp [sendMessagePhase1, h, hl]

/-- Witness for C9: a whitespace-only input is a no-op, and a real input
during conversation loading only warns. -/
theorem sendMessage_empty_and_loading_guards_witness :
    sendMessagePhase1 exStA true "   " 5 "t" = (exStA, false, 0) ∧
    sendMessagePhase1 exStA true "hi" 5 "t" = (exStA, false, 1) :=
  ⟨(sendMessage_empty_and_loading_guards exStA true "   " 5 "t").1
      (by decide),
   (sendMessage_empty_and_loading_guards exStA true "hi" 5 "t").2 (by decide)
      rfl⟩

/-- Claim C10: the response interceptor always rejects with a normalized
`{detail, status_code}` whose `detail` is non-empty, taking the server's
detail when present and non-empty, else the transport error message, else a
generic message; the status code is passed through; and a 401 removes the
`access_token` and `user` localStorage entries. -/
theorem responseInterceptor_normalizes_errors (e : AxiosErr) :
    (responseInterceptor e).apiError.detail ≠ "" ∧
    (responseInterceptor e).apiError.status_code =
      e.response.map ErrResponse.status ∧
    (∀ r, e.response = some r → r.status = 401 →
      (responseInterceptor e).removedKeys = ["access_token", "user"] ∧
      (responseInterceptor e).redirectedToLogin = true) ∧
    ((e.response.bind ErrResponse.detail).getD "" ≠ "" →
      (responseInterceptor e).apiError.detail =
        (e.response.bind ErrResponse.detail).getD "") ∧
    ((e.response.bind ErrResponse.detail).getD "" = "" → e.message ≠ "" →
      (responseInterceptor e).apiError.detail = e.message) ∧
    ((e.response.bind ErrResponse.detail).getD "" = "" → e.message = "" →
      (responseInterceptor e).apiError.detail = "An error occurred") := by
  refine ⟨?_, rfl, ?_, ?_, ?_, ?_⟩
  · show jsOr _ _ ≠ ""
    unfold jsOr
    split_ifs with h1 h2 <;> simp_all
  · intro r hr h401
    simp [responseInterceptor, hr, h401]
  · intro h
    simp [responseInterceptor, jsOr, h]
  · intro h h2
    simp [responseInterceptor, jsOr, h, h2]
  · intro h h2
    simp [responseInterceptor, jsOr, h, h2]

/-- Witness for C10: a 401 with no server detail and an empty transport
message falls back to the generic detail and clears the auth storage. -/
theorem responseInterceptor_normalizes_errors_witness :
    (responseInterceptor
        { response := some { status := 401 }, message := "" }).removedKeys =
      ["access_token", "user"] ∧
    (responseInterceptor
        { response := some { status := 401 }, message := "" }).apiError.detail
      = "An error occurred" :=
  ⟨((responseInterceptor_normalizes_errors
      { response := some { status := 401 }, message := "" }).2.2.1
      { status := 401 } rfl rfl).1,
   (responseInterceptor_normalizes_errors
      { response := some { status := 401 }, message := "" }).2.2.2.2.2 rfl
      rfl⟩

end AIChat
